import Mathlib

/-!
Shallow embedding of the staged asynchronous activation state machines of
`src/network/networkd-link.c` and `src/core/busname.c`.

Modelling conventions:
* Machine integers (`int` error codes, descriptors) are `Int`; the
  per-link pending-message counter `rtnl_messages` (an unsigned counter in
  the C struct) is modelled as `Int` so that non-negativity is a statement,
  not a typing artifact.
* Asynchronous kernel calls (`route_configure`, `address_configure`,
  `bridge_join`, `sd_rtnl_call_async`, `bus_kernel_create_starter`,
  `sd_event_add_io`) are external collaborators; each call site is
  parametrised by the `Int` return value the collaborator produces there.
* The transport's set of issued-but-not-yet-dispatched completions is kept
  in ghost fields `pendingAddr`, `pendingRoute`, `pendingBridge`,
  `pendingUp` of the link record; they are incremented exactly where the C
  code issues an asynchronous call and decremented exactly where the
  corresponding completion handler is dispatched.  They never influence
  the control flow of the embedded functions.
* Logging is side-effect free in the embedding; where a claim is about a
  log message, the condition guarding the `log_warning` call is embedded
  as a separate predicate named after the handler.
-/

/-- Link states from `networkd.h` (order as listed in the source and in
the specification: Invalid, JoinBridge, BridgeJoined, SetAddresses,
AddressesSet, SetRoutes, RoutesSet, Configured, Failed). -/
inductive LinkState where
  | invalid
  | joinBridge
  | bridgeJoined
  | setAddresses
  | addressesSet
  | setRoutes
  | routesSet
  | configured
  | failed
deriving DecidableEq, Repr

/-- The `Link` object of networkd-link.c restricted to the fields the
configuration state machine reads or writes, plus the ghost transport
counters described in the module comment. -/
structure Link where
  state : LinkState
  rtnlMessages : Int
  flags : Nat
  pendingAddr : Nat
  pendingRoute : Nat
  pendingBridge : Nat
  pendingUp : Nat
deriving DecidableEq, Repr

/-- The network configuration attached to the link, reduced to what the
state machine consumes: whether a bridge is configured, and for every
asynchronous issue call the `Int` result the transport returns at that
call site (`bridge_join`, `link_up`, one entry per `address_configure`
and per `route_configure`). -/
structure Network where
  bridge : Bool
  bridgeIssue : Int
  upIssue : Int
  addresses : List Int
  routes : List Int
deriving DecidableEq, Repr

/-- errno EEXIST. -/
def EEXIST : Int := 17

/-- IFF_UP from linux/if.h. -/
def IFF_UP : Nat := 1

/-- link_enter_configured: log and set LINK_STATE_CONFIGURED. -/
def link_enter_configured (link : Link) : Link :=
  { link with state := LinkState.configured }

/-- link_enter_failed: log and set LINK_STATE_FAILED. -/
def link_enter_failed (link : Link) : Link :=
  { link with state := LinkState.failed }

/-- link_is_up: `link->flags & IFF_UP`. -/
def link_is_up (link : Link) : Bool :=
  link.flags &&& IFF_UP != 0

/-- link_enter_routes_set: if the link is already up go straight to
configured, else wait in LINK_STATE_ROUTES_SET. -/
def link_enter_routes_set (link : Link) : Link :=
  if link_is_up link then link_enter_configured link
  else { link with state := LinkState.routesSet }

/-- route_handler: decrement `rtnl_messages`; in LINK_STATE_FAILED just
drain; otherwise enter the routes-set stage exactly when the counter
reaches zero.  (The handler reads the message errno only to log.) -/
def route_handler (m : Int) (link : Link) : Link :=
  let link := { link with
    rtnlMessages := link.rtnlMessages - 1,
    pendingRoute := link.pendingRoute - 1 }
  if link.state = LinkState.failed then link
  else if link.rtnlMessages = 0 then link_enter_routes_set link
  else link

/-- The condition of route_handler's `log_warning` call: not draining in
the failed state, and the completion errno is negative but not -EEXIST. -/
def route_handler_warns (link : Link) (m : Int) : Prop :=
  link.state ≠ LinkState.failed ∧ m < 0 ∧ m ≠ -EEXIST

/-- The LIST_FOREACH body of link_enter_set_routes: issue each route; a
synchronous issue failure aborts to failed without registering a count,
a successful issue increments `rtnl_messages` (and the ghost transport
counter). -/
def link_enter_set_routes_loop : List Int → Link → Link
  | [], link => link
  | r :: rest, link =>
      if r < 0 then link_enter_failed link
      else link_enter_set_routes_loop rest
        { link with
          rtnlMessages := link.rtnlMessages + 1,
          pendingRoute := link.pendingRoute + 1 }

/-- link_enter_set_routes: set LINK_STATE_SET_ROUTES, then either chain
synchronously to routes-set (no routes configured) or issue every
route. -/
def link_enter_set_routes (routes : List Int) (link : Link) : Link :=
  let link := { link with state := LinkState.setRoutes }
  if routes.isEmpty then link_enter_routes_set link
  else link_enter_set_routes_loop routes link

/-- link_enter_addresses_set: log, set LINK_STATE_ADDRESSES_SET and chain
into the route stage. -/
def link_enter_addresses_set (routes : List Int) (link : Link) : Link :=
  link_enter_set_routes routes { link with state := LinkState.addressesSet }

/-- address_handler: decrement `rtnl_messages`; in LINK_STATE_FAILED just
drain; otherwise enter the addresses-set stage exactly when the counter
reaches zero. -/
def address_handler (routes : List Int) (m : Int) (link : Link) : Link :=
  let link := { link with
    rtnlMessages := link.rtnlMessages - 1,
    pendingAddr := link.pendingAddr - 1 }
  if link.state = LinkState.failed then link
  else if link.rtnlMessages = 0 then link_enter_addresses_set routes link
  else link

/-- The condition of address_handler's `log_warning` call. -/
def address_handler_warns (link : Link) (m : Int) : Prop :=
  link.state ≠ LinkState.failed ∧ m < 0 ∧ m ≠ -EEXIST

/-- The LIST_FOREACH body of link_enter_set_addresses. -/
def link_enter_set_addresses_loop : List Int → Link → Link
  | [], link => link
  | r :: rest, link =>
      if r < 0 then link_enter_failed link
      else link_enter_set_addresses_loop rest
        { link with
          rtnlMessages := link.rtnlMessages + 1,
          pendingAddr := link.pendingAddr + 1 }

/-- link_enter_set_addresses: with no addresses configured chain straight
to addresses-set (LINK_STATE_SET_ADDRESSES is never entered), otherwise
set LINK_STATE_SET_ADDRESSES and issue every address. -/
def link_enter_set_addresses (addresses routes : List Int) (link : Link) : Link :=
  if addresses.isEmpty then link_enter_addresses_set routes link
  else link_enter_set_addresses_loop addresses
    { link with state := LinkState.setAddresses }

/-- link_handler: the link-up completion.  The errno is only logged; the
handler unconditionally ors IFF_UP into the flags and, when the link is
waiting in LINK_STATE_ROUTES_SET, advances to configured. -/
def link_handler (m : Int) (link : Link) : Link :=
  let link := { link with
    flags := link.flags ||| IFF_UP,
    pendingUp := link.pendingUp - 1 }
  if link.state = LinkState.routesSet then link_enter_configured link
  else link

/-- link_up: allocate and send the RTM_NEWLINK request; both failure
points return the negative error, a successful submission registers one
future link-up completion. -/
def link_up (upIssue : Int) (link : Link) : Int × Link :=
  if upIssue < 0 then (upIssue, link)
  else (0, { link with pendingUp := link.pendingUp + 1 })

/-- link_enter_bridge_joined: bring the link up (synchronous failure
aborts to failed), set LINK_STATE_BRIDGE_JOINED and chain into the
address stage. -/
def link_enter_bridge_joined (net : Network) (link : Link) : Link :=
  let r := link_up net.upIssue link
  if r.1 < 0 then link_enter_failed r.2
  else link_enter_set_addresses net.addresses net.routes
    { r.2 with state := LinkState.bridgeJoined }

/-- bridge_handler: drain in LINK_STATE_FAILED; otherwise (errno is only
logged) chain into link_enter_bridge_joined.  Note that the bridge
completion does not touch `rtnl_messages`. -/
def bridge_handler (net : Network) (m : Int) (link : Link) : Link :=
  let link := { link with pendingBridge := link.pendingBridge - 1 }
  if link.state = LinkState.failed then link
  else link_enter_bridge_joined net link

/-- link_enter_join_bridge: with no bridge configured chain straight to
bridge-joined; otherwise set LINK_STATE_JOIN_BRIDGE and issue the
bridge_join call, aborting to failed on synchronous issue failure. -/
def link_enter_join_bridge (net : Network) (link : Link) : Link :=
  if !net.bridge then link_enter_bridge_joined net link
  else
    let link := { link with state := LinkState.joinBridge }
    if net.bridgeIssue < 0 then link_enter_failed link
    else { link with pendingBridge := link.pendingBridge + 1 }

/-- link_configure: enter the first stage.  (Every link_enter_* function
returns a non-negative int in the source, so the `r < 0` fallback of
link_configure is dead and the function reduces to the first stage
entry.) -/
def link_configure (net : Network) (link : Link) : Link :=
  link_enter_join_bridge net link

/-- A freshly created link (link_new: zero-initialised, state
_LINK_STATE_INVALID, no messages outstanding). -/
def link0 : Link :=
  { state := LinkState.invalid, rtnlMessages := 0, flags := 0,
    pendingAddr := 0, pendingRoute := 0, pendingBridge := 0, pendingUp := 0 }

/-- One event of the single-threaded event loop: dispatching the
completion of an asynchronous call that is outstanding at the transport.
The enabling condition is only that such a completion exists; the errno
it carries is arbitrary. -/
inductive LinkStep (net : Network) : Link → Link → Prop where
  | completeBridge (m : Int) (l : Link) :
      0 < l.pendingBridge → LinkStep net l (bridge_handler net m l)
  | completeAddr (m : Int) (l : Link) :
      0 < l.pendingAddr → LinkStep net l (address_handler net.routes m l)
  | completeRoute (m : Int) (l : Link) :
      0 < l.pendingRoute → LinkStep net l (route_handler m l)
  | completeUp (m : Int) (l : Link) :
      0 < l.pendingUp → LinkStep net l (link_handler m l)

/-- The states reachable by any finite sequence of completion events after
link_configure on a fresh link. -/
def LinkReachable (net : Network) (l : Link) : Prop :=
  Relation.ReflTransGen (LinkStep net) (link_configure net link0) l

/-- The concurrency-accounting invariant of the link state machine:
`rtnl_messages` equals the number of outstanding address plus route
completions, a kind of completion can only be outstanding in its own
stage or after the entity failed, the two counted stages never overlap,
and at most one bridge join is ever outstanding. -/
def LinkInv (l : Link) : Prop :=
  l.rtnlMessages = (l.pendingAddr : Int) + (l.pendingRoute : Int)
  ∧ (0 < l.pendingAddr → l.state = LinkState.setAddresses ∨ l.state = LinkState.failed)
  ∧ (0 < l.pendingRoute → l.state = LinkState.setRoutes ∨ l.state = LinkState.failed)
  ∧ (l.pendingAddr = 0 ∨ l.pendingRoute = 0)
  ∧ (0 < l.pendingBridge → l.state = LinkState.joinBridge ∨ l.state = LinkState.failed)
  ∧ l.pendingBridge ≤ 1

/-- No address or route completion is outstanding and none is counted. -/
def ZeroPend (l : Link) : Prop :=
  l.rtnlMessages = 0 ∧ l.pendingAddr = 0 ∧ l.pendingRoute = 0 ∧ l.pendingBridge = 0

/-- BusName states.  busname.h is not part of the sample; the declaration
order Dead, Listening, Running, Failed follows the specification's state
list and the listing order of the string table in busname.c. -/
inductive BusNameState where
  | dead
  | listening
  | running
  | failed
deriving DecidableEq, Repr

/-- BusName results.  The string table in busname.c has entries only for
success and resources; the service-failed-permanent value is produced by
busname_trigger_notify but has no string. -/
inductive BusNameResult where
  | success
  | failureResources
  | failureServiceFailedPermanent
deriving DecidableEq, Repr

/-- Coarse unit activation states (the subset busname.c maps onto). -/
inductive UnitActiveState where
  | inactive
  | active
  | unitFailed
deriving DecidableEq, Repr

/-- state_translation_table of busname.c: the static state-to-status
table used for every notification. -/
def state_translation_table : BusNameState → UnitActiveState
  | BusNameState.dead => UnitActiveState.inactive
  | BusNameState.listening => UnitActiveState.active
  | BusNameState.running => UnitActiveState.active
  | BusNameState.failed => UnitActiveState.unitFailed

/-- The BusName unit reduced to the fields busname.c reads or writes.
`event_source` is `none` while no event source exists and `some b` when
one exists whose enabled flag is `b`. -/
structure BusName where
  state : BusNameState
  result : BusNameResult
  deserialized_state : BusNameState
  starter_fd : Int
  event_source : Option Bool
deriving DecidableEq, Repr

/-- busname_init on a zero-initialised unit: the starter descriptor is
cleared to -1, every other field is the zero value of its type. -/
def busname_init : BusName :=
  { state := BusNameState.dead, result := BusNameResult.success,
    deserialized_state := BusNameState.dead, starter_fd := -1,
    event_source := none }

/-- busname_unwatch_fd: disable the event source if one exists. -/
def busname_unwatch_fd (n : BusName) : BusName :=
  match n.event_source with
  | some _ => { n with event_source := some false }
  | none => n

/-- busname_close_fd (the source guards with `starter_fd <= 0`). -/
def busname_close_fd (n : BusName) : BusName :=
  if n.starter_fd ≤ 0 then n
  else { n with starter_fd := -1 }

/-- busname_watch_fd, parametrised by the result `watchRes` the event
library returns when enabling or registering the io source; on failure
the watch is disabled again and the error returned. -/
def busname_watch_fd (watchRes : Int) (n : BusName) : Int × BusName :=
  if n.starter_fd < 0 then (0, n)
  else if watchRes < 0 then (watchRes, busname_unwatch_fd n)
  else (0, { n with event_source := some true })

/-- busname_open_fd, parametrised by the descriptor (or negative error)
`openRes` that bus_kernel_create_starter returns; a no-op when a
descriptor is already held. -/
def busname_open_fd (openRes : Int) (n : BusName) : Int × BusName :=
  if 0 ≤ n.starter_fd then (0, n)
  else if openRes < 0 then (openRes, n)
  else (0, { n with starter_fd := openRes })

/-- The observable side effects of busname_set_state towards the logger
and the dependency graph. -/
structure SetStateNotify where
  logged : Bool
  notifyOld : UnitActiveState
  notifyNew : UnitActiveState
deriving DecidableEq, Repr

/-- busname_set_state: the only mutator of the visible state field.  It
disables the watch unless the new state is listening, closes the
descriptor unless the new state is listening or running, logs only when
the state changed, and notifies with the table-translated old and new
activation states. -/
def busname_set_state (n : BusName) (state : BusNameState) : BusName × SetStateNotify :=
  let old_state := n.state
  let n := { n with state := state }
  let n := if state ≠ BusNameState.listening then busname_unwatch_fd n else n
  let n := if ¬ (state = BusNameState.listening ∨ state = BusNameState.running)
           then busname_close_fd n else n
  (n, { logged := decide (state ≠ old_state),
        notifyOld := state_translation_table old_state,
        notifyNew := state_translation_table state })

/-- busname_enter_dead: a non-success result overwrites the stored one;
the terminal state is failed iff the stored result is not success. -/
def busname_enter_dead (n : BusName) (f : BusNameResult) : BusName :=
  let n := if f ≠ BusNameResult.success then { n with result := f } else n
  (busname_set_state n
    (if n.result ≠ BusNameResult.success then BusNameState.failed
     else BusNameState.dead)).1

/-- busname_enter_listening: open then watch the starter descriptor; a
synchronous failure of either drives the unit to the dead/failed path
with a resources result. -/
def busname_enter_listening (openRes watchRes : Int) (n : BusName) : BusName :=
  let r := busname_open_fd openRes n
  if r.1 < 0 then busname_enter_dead r.2 BusNameResult.failureResources
  else
    let r2 := busname_watch_fd watchRes r.2
    if r2.1 < 0 then busname_enter_dead r2.2 BusNameResult.failureResources
    else (busname_set_state r2.2 BusNameState.listening).1

/-- busname_coldplug: a no-op when the deserialized state equals the
current (dead) state; otherwise re-open the descriptor for the states
that need one, re-arm the watch for listening, and apply the restored
state through busname_set_state. -/
def busname_coldplug (openRes watchRes : Int) (n : BusName) : Int × BusName :=
  if n.deserialized_state = n.state then (0, n)
  else
    let p := if n.deserialized_state = BusNameState.listening ∨
                n.deserialized_state = BusNameState.running
             then busname_open_fd openRes n else (0, n)
    if p.1 < 0 then p
    else
      let q := if n.deserialized_state = BusNameState.listening
               then busname_watch_fd watchRes p.2 else (0, p.2)
      if q.1 < 0 then q
      else (0, (busname_set_state q.2 n.deserialized_state).1)

/-- busname_state_table / busname_state_to_string. -/
def busname_state_to_string : BusNameState → String
  | BusNameState.dead => "dead"
  | BusNameState.listening => "listening"
  | BusNameState.running => "running"
  | BusNameState.failed => "failed"

/-- The from-string direction of the DEFINE_STRING_TABLE_LOOKUP pair;
an unknown name yields none (a negative value in the source). -/
def busname_state_from_string (s : String) : Option BusNameState :=
  if s = "dead" then some BusNameState.dead
  else if s = "listening" then some BusNameState.listening
  else if s = "running" then some BusNameState.running
  else if s = "failed" then some BusNameState.failed
  else none

/-- busname_result_table: only success and resources have entries; the
permanent failure value maps to a null string. -/
def busname_result_to_string : BusNameResult → Option String
  | BusNameResult.success => some "success"
  | BusNameResult.failureResources => some "resources"
  | BusNameResult.failureServiceFailedPermanent => none

def busname_result_from_string (s : String) : Option BusNameResult :=
  if s = "success" then some BusNameResult.success
  else if s = "resources" then some BusNameResult.failureResources
  else none

/-- Decimal digit value of a character, none on a non-digit. -/
def charDigit (c : Char) : Option Nat :=
  if c.isDigit then some (c.toNat - 48) else none

/-- Left-to-right accumulation of decimal digits. -/
def parseNatDigits : List Char → Nat → Option Nat
  | [], acc => some acc
  | c :: rest, acc =>
      match charDigit c with
      | none => none
      | some d => parseNatDigits rest (acc * 10 + d)

/-- safe_atoi on the character list of the value: base-10, an optional
leading minus sign, failure on an empty or non-numeric string. -/
def safe_atoi_chars : List Char → Option Int
  | [] => none
  | c :: cs =>
      if c = '-' then
        match cs with
        | [] => none
        | _ :: _ => Option.map (fun m : Nat => -(m : Int)) (parseNatDigits cs 0)
      else Option.map (fun m : Nat => (m : Int)) (parseNatDigits (c :: cs) 0)

def safe_atoi (s : String) : Option Int :=
  safe_atoi_chars s.data

/-- Decimal rendering of a natural number (most significant digit first),
via the little-endian digit list. -/
def renderNat (n : Nat) : List Char :=
  if n = 0 then [Nat.digitChar 0]
  else ((Nat.digits 10 n).map Nat.digitChar).reverse

/-- The printf "%i" of the serializer. -/
def renderInt (i : Int) : String :=
  if i < 0 then String.mk ('-' :: renderNat i.natAbs)
  else String.mk (renderNat i.natAbs)

/-- busname_serialize.  The descriptor-passing table is a list of
descriptors; fdset_put_dup is parametrised by the duplicated descriptor
`dupFd` the kernel hands back (negative on failure).  A line is a
key/value pair; the result line is skipped when the result has no string
(unit_serialize_item skips a null value). -/
def busname_serialize (dupFd : Int) (n : BusName) (fds : List Int) :
    Except Int (List (String × String) × List Int) :=
  let lines := [("state", busname_state_to_string n.state)]
  let lines := match busname_result_to_string n.result with
    | some r => lines ++ [("result", r)]
    | none => lines
  if 0 ≤ n.starter_fd then
    if dupFd < 0 then Except.error dupFd
    else Except.ok (lines ++ [("starter-fd", renderInt dupFd)], dupFd :: fds)
  else Except.ok (lines, fds)

/-- busname_deserialize_item: unknown keys, malformed names, malformed or
unknown descriptor references are logged and ignored; a valid descriptor
reference takes the descriptor out of the table (closing any previously
held one). -/
def busname_deserialize_item (n : BusName) (key value : String) (fds : List Int) :
    BusName × List Int :=
  if key = "state" then
    match busname_state_from_string value with
    | none => (n, fds)
    | some st => ({ n with deserialized_state := st }, fds)
  else if key = "result" then
    match busname_result_from_string value with
    | none => (n, fds)
    | some f =>
        if f ≠ BusNameResult.success then ({ n with result := f }, fds)
        else (n, fds)
  else if key = "starter-fd" then
    match safe_atoi value with
    | none => (n, fds)
    | some fd =>
        if fd < 0 ∨ ¬ fds.contains fd then (n, fds)
        else ({ n with starter_fd := fd }, fds.erase fd)
  else (n, fds)

/-- Apply every serialized line in order. -/
def deserialize_all (items : List (String × String)) (n : BusName) (fds : List Int) :
    BusName × List Int :=
  items.foldl (fun p kv => busname_deserialize_item p.1 kv.1 kv.2 p.2) (n, fds)

/-- Service states.  Modelled from the spec: service.h is not part of the
sample; busname_trigger_notify names these constants, and the declaration
order below is the service state order the specification's trigger
contract and its design note on the state-space mismatch presuppose. -/
inductive ServiceState where
  | dead
  | startPre
  | start
  | startPost
  | running
  | exited
  | reload
  | stop
  | stopSigterm
  | stopSigkill
  | stopPost
  | finalSigterm
  | finalSigkill
  | failed
  | autoRestart
deriving DecidableEq, Repr

/-- Service results; only the start-limit value is distinguished by
busname_trigger_notify. -/
inductive ServiceResult where
  | success
  | failureResources
  | failureTimeout
  | failureExitCode
  | failureSignal
  | failureCoreDump
  | failureWatchdog
  | failureStartLimit
deriving DecidableEq, Repr

/-- Modelled from the spec: the integer codes of the BusNameState enum of
the missing busname.h, in declaration order. -/
def busNameStateCode : BusNameState → Nat
  | BusNameState.dead => 0
  | BusNameState.listening => 1
  | BusNameState.running => 2
  | BusNameState.failed => 3

/-- Modelled from the spec: the integer codes of the ServiceState enum of
the missing service.h, in declaration order. -/
def serviceStateCode : ServiceState → Nat
  | ServiceState.dead => 0
  | ServiceState.startPre => 1
  | ServiceState.start => 2
  | ServiceState.startPost => 3
  | ServiceState.running => 4
  | ServiceState.exited => 5
  | ServiceState.reload => 6
  | ServiceState.stop => 7
  | ServiceState.stopSigterm => 8
  | ServiceState.stopSigkill => 9
  | ServiceState.stopPost => 10
  | ServiceState.finalSigterm => 11
  | ServiceState.finalSigkill => 12
  | ServiceState.failed => 13
  | ServiceState.autoRestart => 14

/-- The observed dependent unit as busname_trigger_notify sees it. -/
structure Srv where
  loaded : Bool
  isService : Bool
  sstate : ServiceState
  sresult : ServiceResult
deriving DecidableEq, Repr

/-- The final IN_SET of busname_trigger_notify compares the BusName's own
state value `n->state` with SERVICE_* constants of a different enum; it
is embedded as the numeric comparison the C compiler performs. -/
def state_in_service_stop_set (s : BusNameState) : Bool :=
  [serviceStateCode ServiceState.dead,
   serviceStateCode ServiceState.stop,
   serviceStateCode ServiceState.stopSigterm,
   serviceStateCode ServiceState.stopSigkill,
   serviceStateCode ServiceState.stopPost,
   serviceStateCode ServiceState.finalSigterm,
   serviceStateCode ServiceState.finalSigkill,
   serviceStateCode ServiceState.autoRestart].contains (busNameStateCode s)

/-- busname_trigger_notify: only acts when the observer is running or
listening and the observed unit is a loaded service; a failed dependent
re-arms listening unless its failure is the start-limit one, which drives
the observer to its own terminal failed state; the final block is the
literal cross-enum comparison described above. -/
def busname_trigger_notify (openRes watchRes : Int) (other : Srv) (n : BusName) : BusName :=
  if ¬ (n.state = BusNameState.running ∨ n.state = BusNameState.listening) then n
  else if ¬ (other.loaded = true ∧ other.isService = true) then n
  else
    let n := if other.sstate = ServiceState.failed then
               (if other.sresult = ServiceResult.failureStartLimit
                then busname_enter_dead n BusNameResult.failureServiceFailedPermanent
                else busname_enter_listening openRes watchRes n)
             else n
    if state_in_service_stop_set n.state then busname_enter_listening openRes watchRes n
    else n

/-- The per-dispatch accounting contract of the two counted completion
handlers, over any state the event system can reach: the counter is
non-negative, strictly positive whenever a counted completion is about to
be dispatched, and the dispatch enters the next stage exactly when its
decrement reaches zero. -/
def pending_counter_ok (net : Network) (l : Link) : Prop :=
  0 ≤ l.rtnlMessages
  ∧ (0 < l.pendingAddr →
      0 < l.rtnlMessages
      ∧ ∀ m : Int,
          (l.rtnlMessages = 1 → l.state ≠ LinkState.failed →
            address_handler net.routes m l =
              link_enter_addresses_set net.routes
                { l with rtnlMessages := 0, pendingAddr := l.pendingAddr - 1 })
          ∧ (1 < l.rtnlMessages →
            address_handler net.routes m l =
              { l with rtnlMessages := l.rtnlMessages - 1,
                       pendingAddr := l.pendingAddr - 1 }))
  ∧ (0 < l.pendingRoute →
      0 < l.rtnlMessages
      ∧ ∀ m : Int,
          (l.rtnlMessages = 1 → l.state ≠ LinkState.failed →
            route_handler m l =
              link_enter_routes_set
                { l with rtnlMessages := 0, pendingRoute := l.pendingRoute - 1 })
          ∧ (1 < l.rtnlMessages →
            route_handler m l =
              { l with rtnlMessages := l.rtnlMessages - 1,
                       pendingRoute := l.pendingRoute - 1 }))

/-- The lines busname_serialize emits for a unit holding a descriptor
whose result has a string-table entry. -/
def roundtrip_lines (dupFd : Int) (n : BusName) : List (String × String) :=
  [("state", busname_state_to_string n.state),
   ("result", (busname_result_to_string n.result).getD ""),
   ("starter-fd", renderInt dupFd)]

/-- The fresh unit after every serialized line has been applied. -/
def restored (dupFd : Int) (n : BusName) (fds : List Int) : BusName :=
  (deserialize_all (roundtrip_lines dupFd n) busname_init (dupFd :: fds)).1

/-- The descriptor table after every serialized line has been applied. -/
def restored_fds (dupFd : Int) (n : BusName) (fds : List Int) : List Int :=
  (deserialize_all (roundtrip_lines dupFd n) busname_init (dupFd :: fds)).2

/-- The serialize / deserialize / coldplug round-trip contract. -/
def roundtrip_ok (dupFd openRes watchRes : Int) (n : BusName) (fds : List Int) : Prop :=
  busname_serialize dupFd n fds = Except.ok (roundtrip_lines dupFd n, dupFd :: fds)
  ∧ (restored dupFd n fds).deserialized_state = n.state
  ∧ (restored dupFd n fds).result = n.result
  ∧ (restored dupFd n fds).starter_fd = dupFd
  ∧ restored_fds dupFd n fds = fds
  ∧ (busname_coldplug openRes watchRes (restored dupFd n fds)).1 = 0
  ∧ (busname_coldplug openRes watchRes (restored dupFd n fds)).2.state = n.state
  ∧ (busname_coldplug openRes watchRes (restored dupFd n fds)).2.result = n.result
  ∧ (busname_coldplug openRes watchRes (restored dupFd n fds)).2.starter_fd = dupFd

/-- Concrete inputs used to instantiate the claims below. -/
def netW1 : Network :=
  { bridge := false, bridgeIssue := 0, upIssue := 0, addresses := [0], routes := [] }

def lW1 : Link := link_configure netW1 link0

def lFailedW : Link :=
  { state := LinkState.failed, rtnlMessages := 3, flags := 0,
    pendingAddr := 1, pendingRoute := 2, pendingBridge := 0, pendingUp := 0 }

def netW4 : Network :=
  { bridge := false, bridgeIssue := 0, upIssue := 0, addresses := [], routes := [] }

def netW5 : Network :=
  { bridge := false, bridgeIssue := 0, upIssue := 0, addresses := [0, 0], routes := [] }

def lW5 : Link := link_configure netW5 link0

def lW5a : Link := address_handler netW5.routes (-EEXIST) lW5

def lW5b : Link := address_handler netW5.routes 0 lW5a

def nW3 : BusName :=
  { state := BusNameState.listening, result := BusNameResult.success,
    deserialized_state := BusNameState.dead, starter_fd := 4,
    event_source := some true }

def nW6 : BusName :=
  { state := BusNameState.dead, result := BusNameResult.success,
    deserialized_state := BusNameState.dead, starter_fd := -1,
    event_source := none }

def nW7 : BusName :=
  { state := BusNameState.listening, result := BusNameResult.success,
    deserialized_state := BusNameState.dead, starter_fd := 5,
    event_source := some true }

def nW8 : BusName :=
  { state := BusNameState.running, result := BusNameResult.success,
    deserialized_state := BusNameState.dead, starter_fd := 6,
    event_source := some true }

def srvFailPerm : Srv :=
  { loaded := true, isService := true, sstate := ServiceState.failed,
    sresult := ServiceResult.failureStartLimit }

def srvFailOther : Srv :=
  { loaded := true, isService := true, sstate := ServiceState.failed,
    sresult := ServiceResult.failureExitCode }

def nW9 : BusName :=
  { state := BusNameState.running, result := BusNameResult.success,
    deserialized_state := BusNameState.dead, starter_fd := 7,
    event_source := some true }

def srvStopping : Srv :=
  { loaded := true, isService := true, sstate := ServiceState.stop,
    sresult := ServiceResult.success }

def srvRunningW : Srv :=
  { loaded := true, isService := true, sstate := ServiceState.running,
    sresult := ServiceResult.success }

theorem zeroPend_inv {l : Link} (h : ZeroPend l) : LinkInv l := by
  obtain ⟨h1, h2, h3, h4⟩ := h
  refine ⟨by omega, ?_, ?_, ?_, ?_, by omega⟩ <;> omega

theorem routes_set_inv {l : Link} (h : ZeroPend l) :
    LinkInv (link_enter_routes_set l) := by
  obtain ⟨h1, h2, h3, h4⟩ := h
  unfold link_enter_routes_set link_enter_configured
  split <;> exact zeroPend_inv ⟨by simpa, by simpa, by simpa, by simpa⟩

theorem set_routes_loop_inv {rs : List Int} {l : Link}
    (hst : l.state = LinkState.setRoutes)
    (hr : l.rtnlMessages = (l.pendingRoute : Int))
    (ha : l.pendingAddr = 0) (hb : l.pendingBridge = 0) :
    LinkInv (link_enter_set_routes_loop rs l) := by
  induction rs generalizing l with
  | nil =>
      exact ⟨by simp [link_enter_set_routes_loop]; omega,
        by simp [link_enter_set_routes_loop]; omega,
        fun _ => Or.inl (by simpa [link_enter_set_routes_loop]),
        Or.inl (by simpa [link_enter_set_routes_loop]),
        by simp [link_enter_set_routes_loop]; omega,
        by simp [link_enter_set_routes_loop]; omega⟩
  | cons r rest ih =>
      unfold link_enter_set_routes_loop
      split
      · exact ⟨by simp [link_enter_failed]; omega,
          fun _ => Or.inr (by simp [link_enter_failed]),
          fun _ => Or.inr (by simp [link_enter_failed]),
          Or.inl (by simpa [link_enter_failed]),
          fun _ => Or.inr (by simp [link_enter_failed]),
          by simp [link_enter_failed]; omega⟩
      · exact ih (by simpa) (by simp; omega) (by simpa) (by simpa)

theorem set_routes_inv {rs : List Int} {l : Link} (h : ZeroPend l) :
    LinkInv (link_enter_set_routes rs l) := by
  obtain ⟨h1, h2, h3, h4⟩ := h
  unfold link_enter_set_routes
  split
  · exact routes_set_inv ⟨by simpa, by simpa, by simpa, by simpa⟩
  · exact set_routes_loop_inv (by simp) (by simp; omega) (by simpa) (by simpa)

theorem addresses_set_inv {rs : List Int} {l : Link} (h : ZeroPend l) :
    LinkInv (link_enter_addresses_set rs l) := by
  obtain ⟨h1, h2, h3, h4⟩ := h
  exact set_routes_inv ⟨by simpa, by simpa, by simpa, by simpa⟩

theorem set_addresses_loop_inv {as : List Int} {l : Link}
    (hst : l.state = LinkState.setAddresses)
    (hr : l.rtnlMessages = (l.pendingAddr : Int))
    (ha : l.pendingRoute = 0) (hb : l.pendingBridge = 0) :
    LinkInv (link_enter_set_addresses_loop as l) := by
  induction as generalizing l with
  | nil =>
      exact ⟨by simp [link_enter_set_addresses_loop]; omega,
        fun _ => Or.inl (by simpa [link_enter_set_addresses_loop]),
        by simp [link_enter_set_addresses_loop]; omega,
        Or.inr (by simpa [link_enter_set_addresses_loop]),
        by simp [link_enter_set_addresses_loop]; omega,
        by simp [link_enter_set_addresses_loop]; omega⟩
  | cons a rest ih =>
      unfold link_enter_set_addresses_loop
      split
      · exact ⟨by simp [link_enter_failed]; omega,
          fun _ => Or.inr (by simp [link_enter_failed]),
          fun _ => Or.inr (by simp [link_enter_failed]),
          Or.inr (by simpa [link_enter_failed]),
          fun _ => Or.inr (by simp [link_enter_failed]),
          by simp [link_enter_failed]; omega⟩
      · exact ih (by simpa) (by simp; omega) (by simpa) (by simpa)

theorem set_addresses_inv {as rs : List Int} {l : Link} (h : ZeroPend l) :
    LinkInv (link_enter_set_addresses as rs l) := by
  obtain ⟨h1, h2, h3, h4⟩ := h
  unfold link_enter_set_addresses
  split
  · exact addresses_set_inv ⟨by simpa, by simpa, by simpa, by simpa⟩
  · exact set_addresses_loop_inv (by simp) (by simp; omega) (by simpa) (by simpa)

theorem link_enter_bridge_joined_eq (net : Network) (l : Link) :
    link_enter_bridge_joined net l =
      if net.upIssue < 0 then link_enter_failed l
      else link_enter_set_addresses net.addresses net.routes
        { l with state := LinkState.bridgeJoined, pendingUp := l.pendingUp + 1 } := by
  unfold link_enter_bridge_joined link_up
  by_cases hu : net.upIssue < 0 <;> simp [hu]

theorem bridge_joined_inv {net : Network} {l : Link} (h : ZeroPend l) :
    LinkInv (link_enter_bridge_joined net l) := by
  obtain ⟨h1, h2, h3, h4⟩ := h
  rw [link_enter_bridge_joined_eq]
  split
  · exact zeroPend_inv ⟨by simpa [link_enter_failed], by simpa [link_enter_failed],
      by simpa [link_enter_failed], by simpa [link_enter_failed]⟩
  · exact set_addresses_inv ⟨by simpa, by simpa, by simpa, by simpa⟩

theorem configure_inv (net : Network) : LinkInv (link_configure net link0) := by
  unfold link_configure link_enter_join_bridge
  split
  · exact bridge_joined_inv ⟨rfl, rfl, rfl, rfl⟩
  · split
    · exact zeroPend_inv ⟨rfl, rfl, rfl, rfl⟩
    · exact ⟨by simp [link0], by simp [link0], by simp [link0],
        Or.inl (by simp [link0]), fun _ => Or.inl (by simp [link0]), by simp [link0]⟩

theorem step_inv {net : Network} {l l' : Link}
    (hinv : LinkInv l) (hstep : LinkStep net l l') : LinkInv l' := by
  obtain ⟨h1, h2, h3, h4, h5, h6⟩ := hinv
  cases hstep with
  | completeAddr m _ hp =>
      rcases h2 hp with hst | hst
      · have hpr : l.pendingRoute = 0 := by rcases h4 with h | h; omega; exact h
        unfold address_handler
        rw [if_neg (by simp [hst])]
        by_cases hz : l.rtnlMessages - 1 = 0
        · rw [if_pos (by simpa using hz)]
          exact addresses_set_inv ⟨by simpa using hz, by simp; omega, by simpa, by
            have := mt h5; simp [hst] at this; simpa using this⟩
        · rw [if_neg (by simpa using hz)]
          refine ⟨by simp; omega, fun _ => Or.inl (by simpa), ?_, ?_, ?_, by simpa⟩
          · intro hc; simp [hpr] at hc
          · exact Or.inr (by simpa)
          · intro hc; simp at hc
            have := mt h5; simp [hst] at this; omega
      · unfold address_handler
        rw [if_pos (by simpa using hst)]
        refine ⟨by simp; omega, fun _ => Or.inr (by simpa), ?_, ?_, ?_, by simpa⟩
        · intro hc; simp at hc; exact Or.inr (by simpa using hst)
        · rcases h4 with h | h
          · omega
          · exact Or.inr (by simpa using h)
        · intro hc; simp at hc; exact Or.inr (by simpa using hst)
  | completeRoute m _ hp =>
      rcases h3 hp with hst | hst
      · have hpa : l.pendingAddr = 0 := by rcases h4 with h | h; exact h; omega
        unfold route_handler
        rw [if_neg (by simp [hst])]
        by_cases hz : l.rtnlMessages - 1 = 0
        · rw [if_pos (by simpa using hz)]
          exact routes_set_inv ⟨by simpa using hz, by simpa, by simp; omega, by
            have := mt h5; simp [hst] at this; simpa using this⟩
        · rw [if_neg (by simpa using hz)]
          refine ⟨by simp; omega, ?_, fun _ => Or.inl (by simpa), ?_, ?_, by simpa⟩
          · intro hc; simp [hpa] at hc
          · exact Or.inl (by simpa)
          · intro hc; simp at hc
            have := mt h5; simp [hst] at this; omega
      · unfold route_handler
        rw [if_pos (by simpa using hst)]
        refine ⟨by simp; omega, ?_, fun _ => Or.inr (by simpa), ?_, ?_, by simpa⟩
        · intro hc; simp at hc; exact Or.inr (by simpa using hst)
        · rcases h4 with h | h
          · exact Or.inl (by simpa using h)
          · omega
        · intro hc; simp at hc; exact Or.inr (by simpa using hst)
  | completeUp m _ hp =>
      dsimp only [link_handler]
      split
      · next hst =>
          have hpa : l.pendingAddr = 0 := by
            by_contra hc; rcases h2 (by omega) with h | h <;> simp [h] at hst
          have hpr : l.pendingRoute = 0 := by
            by_contra hc; rcases h3 (by omega) with h | h <;> simp [h] at hst
          have hpb : l.pendingBridge = 0 := by
            by_contra hc; rcases h5 (by omega) with h | h <;> simp [h] at hst
          exact zeroPend_inv ⟨by simp [link_enter_configured]; omega,
            by simpa [link_enter_configured], by simpa [link_enter_configured],
            by simpa [link_enter_configured]⟩
      · refine ⟨by simpa, fun hc => ?_, fun hc => ?_, ?_, fun hc => ?_, by simpa⟩
        · simpa using h2 (by simpa using hc)
        · simpa using h3 (by simpa using hc)
        · simpa using h4
        · simpa using h5 (by simpa using hc)
  | completeBridge m _ hp =>
      rcases h5 hp with hst | hst
      · have hpa : l.pendingAddr = 0 := by
          by_contra hc; rcases h2 (by omega) with h | h <;> simp [h] at hst
        have hpr : l.pendingRoute = 0 := by
          by_contra hc; rcases h3 (by omega) with h | h <;> simp [h] at hst
        unfold bridge_handler
        rw [if_neg (by simp [hst])]
        exact bridge_joined_inv ⟨by simp; omega, by simpa, by simpa, by simp; omega⟩
      · unfold bridge_handler
        rw [if_pos (by simpa using hst)]
        refine ⟨by simpa, fun hc => ?_, fun hc => ?_, ?_, fun _ => Or.inr (by simpa using hst), by simp; omega⟩
        · exact Or.inr (by simpa using hst)
        · exact Or.inr (by simpa using hst)
        · simpa using h4

theorem reachable_inv {net : Network} {l : Link}
    (h : LinkReachable net l) : LinkInv l := by
  induction h with
  | refl => exact configure_inv net
  | tail _ hstep ih => exact step_inv ih hstep

theorem charDigit_digitChar {d : Nat} (h : d < 10) :
    charDigit (Nat.digitChar d) = some d := by
  interval_cases d <;> decide

theorem digitChar_ne_minus {d : Nat} (h : d < 10) : Nat.digitChar d ≠ '-' := by
  interval_cases d <;> decide

theorem parseNatDigits_append (xs ys : List Char) (a : Nat) :
    parseNatDigits (xs ++ ys) a =
      match parseNatDigits xs a with
      | none => none
      | some b => parseNatDigits ys b := by
  induction xs generalizing a with
  | nil => rfl
  | cons c rest ih =>
      simp only [List.cons_append, parseNatDigits]
      cases charDigit c with
      | none => rfl
      | some d => exact ih _

theorem parseNatDigits_render (ds : List Nat) (h : ∀ d ∈ ds, d < 10) (a : Nat) :
    parseNatDigits ((ds.map Nat.digitChar).reverse) a =
      some (a * 10 ^ ds.length + Nat.ofDigits 10 ds) := by
  induction ds generalizing a with
  | nil => simp [parseNatDigits, Nat.ofDigits_nil]
  | cons d t ih =>
      have hd : d < 10 := h d (List.mem_cons_self d t)
      have ht : ∀ x ∈ t, x < 10 := fun x hx => h x (List.mem_cons_of_mem d hx)
      simp only [List.map_cons, List.reverse_cons]
      rw [parseNatDigits_append, ih ht a]
      simp only [parseNatDigits, charDigit_digitChar hd]
      rw [Nat.ofDigits_cons]
      congr 1
      simp only [List.length_cons, pow_succ]
      ring

theorem safe_atoi_renderInt {i : Int} (h : 0 ≤ i) :
    safe_atoi (renderInt i) = some i := by
  rw [renderInt, if_neg (by omega)]
  by_cases h0 : i.natAbs = 0
  · have hi : i = 0 := by omega
    subst hi
    decide
  · show safe_atoi_chars (String.mk (renderNat i.natAbs)).data = some i
    have hdata : (String.mk (renderNat i.natAbs)).data = renderNat i.natAbs := rfl
    rw [hdata, renderNat, if_neg h0]
    have hall : ∀ d ∈ Nat.digits 10 i.natAbs, d < 10 :=
      fun d hd => Nat.digits_lt_base (by norm_num) hd
    have hne : ((Nat.digits 10 i.natAbs).map Nat.digitChar).reverse ≠ [] := by
      simp [Nat.digits_ne_nil_iff_ne_zero.mpr h0]
    obtain ⟨c, cs, hcs⟩ := List.exists_cons_of_ne_nil hne
    have hmem : c ∈ ((Nat.digits 10 i.natAbs).map Nat.digitChar).reverse := by
      rw [hcs]; exact List.mem_cons_self c cs
    rw [List.mem_reverse, List.mem_map] at hmem
    obtain ⟨d, hd_mem, hd_eq⟩ := hmem
    have hcne : c ≠ '-' := hd_eq ▸ digitChar_ne_minus (hall d hd_mem)
    rw [hcs]
    simp only [safe_atoi_chars]
    rw [if_neg hcne, ← hcs, parseNatDigits_render _ hall 0, Nat.ofDigits_digits]
    simp [Int.natAbs_of_nonneg h]

theorem busname_unwatch_fd_eq (n : BusName) :
    busname_unwatch_fd n =
      { n with event_source := n.event_source.map (fun _ => false) } := by
  cases n with
  | mk s r d fd es => cases es <;> rfl

theorem busname_set_state_eq (n : BusName) (s : BusNameState) :
    busname_set_state n s =
      ({ state := s,
         result := n.result,
         deserialized_state := n.deserialized_state,
         starter_fd :=
           if ¬ (s = BusNameState.listening ∨ s = BusNameState.running) then
             (if n.starter_fd ≤ 0 then n.starter_fd else -1)
           else n.starter_fd,
         event_source :=
           if s ≠ BusNameState.listening then n.event_source.map (fun _ => false)
           else n.event_source },
       { logged := decide (s ≠ n.state),
         notifyOld := state_translation_table n.state,
         notifyNew := state_translation_table s }) := by
  unfold busname_set_state busname_close_fd
  by_cases h1 : s = BusNameState.listening <;>
    by_cases h2 : s = BusNameState.running <;>
      simp [h1, h2, busname_unwatch_fd_eq] <;>
        split <;> rfl

theorem busname_enter_dead_eq (n : BusName) (f : BusNameResult)
    (hf : f ≠ BusNameResult.success) :
    busname_enter_dead n f =
      (busname_set_state { n with result := f } BusNameState.failed).1 := by
  unfold busname_enter_dead
  rw [if_pos hf]
  show (busname_set_state { n with result := f }
    (if ({ n with result := f } : BusName).result ≠ BusNameResult.success
     then BusNameState.failed else BusNameState.dead)).1 =
    (busname_set_state { n with result := f } BusNameState.failed).1
  rw [if_pos (show ({ n with result := f } : BusName).result ≠ BusNameResult.success by
    simpa using hf)]

theorem busname_enter_dead_state (n : BusName) (f : BusNameResult)
    (hf : f ≠ BusNameResult.success) :
    (busname_enter_dead n f).state = BusNameState.failed ∧
    (busname_enter_dead n f).result = f := by
  rw [busname_enter_dead_eq n f hf, busname_set_state_eq]
  exact ⟨rfl, rfl⟩

theorem busname_enter_listening_state (o w : Int) (n : BusName) :
    (busname_enter_listening o w n).state = BusNameState.listening ∨
    (busname_enter_listening o w n).state = BusNameState.failed := by
  unfold busname_enter_listening
  by_cases hopen : (busname_open_fd o n).1 < 0
  · simp only [if_pos hopen]
    exact Or.inr (busname_enter_dead_state _ _ (by decide)).1
  · simp only [if_neg hopen]
    by_cases hw : (busname_watch_fd w (busname_open_fd o n).2).1 < 0
    · simp only [if_pos hw]
      exact Or.inr (busname_enter_dead_state _ _ (by decide)).1
    · simp only [if_neg hw]
      rw [busname_set_state_eq]
      exact Or.inl rfl

/-- Claim C1: over every finite sequence of issue/complete events on a
single link, the pending counter `rtnl_messages` never becomes negative,
each counted completion handler decrements a strictly positive counter
exactly once, and the next stage entry (link_enter_addresses_set after
SetAddresses, link_enter_routes_set after SetRoutes) is invoked by a
completion handler exactly when its decrement brings the counter to zero,
never while it is still positive. -/
theorem C1_pending_counter (net : Network) (l : Link)
    (h : LinkReachable net l) : pending_counter_ok net l := by
  obtain ⟨h1, h2, h3, h4, h5, h6⟩ := reachable_inv h
  refine ⟨by omega,
    fun hp => ⟨by omega, fun m => ⟨?_, ?_⟩⟩,
    fun hp => ⟨by omega, fun m => ⟨?_, ?_⟩⟩⟩
  · intro hone hnf
    dsimp only [address_handler]
    rw [if_neg (by simpa using hnf), if_pos (by simp [hone])]
    congr 1
    simp [hone]
  · intro hgt
    dsimp only [address_handler]
    by_cases hfail : l.state = LinkState.failed
    · rw [if_pos (by simpa using hfail)]
    · rw [if_neg (by simpa using hfail), if_neg (by omega)]
  · intro hone hnf
    dsimp only [route_handler]
    rw [if_neg (by simpa using hnf), if_pos (by simp [hone])]
    congr 1
    simp [hone]
  · intro hgt
    dsimp only [route_handler]
    by_cases hfail : l.state = LinkState.failed
    · rw [if_pos (by simpa using hfail)]
    · rw [if_neg (by simpa using hfail), if_neg (by omega)]

theorem C1_pending_counter_witness :
    LinkReachable netW1 lW1 ∧ 0 < lW1.pendingAddr ∧ pending_counter_ok netW1 lW1 :=
  ⟨Relation.ReflTransGen.refl, by decide,
    C1_pending_counter netW1 lW1 Relation.ReflTransGen.refl⟩

/-- Claim C2: a completion dispatched while the link is already in the
failed state decrements the counter and returns without changing the
state and without invoking any stage-advance function. -/
theorem C2_failed_drain (rs : List Int) (m : Int) (l : Link)
    (h : l.state = LinkState.failed) :
    address_handler rs m l =
      { l with rtnlMessages := l.rtnlMessages - 1,
               pendingAddr := l.pendingAddr - 1 }
    ∧ (address_handler rs m l).state = LinkState.failed
    ∧ route_handler m l =
      { l with rtnlMessages := l.rtnlMessages - 1,
               pendingRoute := l.pendingRoute - 1 }
    ∧ (route_handler m l).state = LinkState.failed := by
  refine ⟨?_, ?_, ?_, ?_⟩ <;>
    dsimp only [address_handler, route_handler] <;>
      rw [if_pos (by simpa using h)] <;> simp [h]

theorem C2_failed_drain_witness :
    lFailedW.state = LinkState.failed
    ∧ address_handler [] 0 lFailedW =
      { lFailedW with rtnlMessages := lFailedW.rtnlMessages - 1,
                      pendingAddr := lFailedW.pendingAddr - 1 }
    ∧ (route_handler 0 lFailedW).state = LinkState.failed :=
  ⟨by decide, (C2_failed_drain [] 0 lFailedW (by decide)).1,
    (C2_failed_drain [] 0 lFailedW (by decide)).2.2.2⟩

/-- Claim C4: with zero configured addresses and zero routes the stage
sequencer chains synchronously through the address and route stages (no
counter is touched and nothing is left outstanding there) and the entity
then reaches configured on the link-up completion alone. -/
theorem C4_zero_config (net : Network) (h1 : net.addresses = [])
    (h2 : net.routes = []) (h3 : net.bridge = false) (h4 : 0 ≤ net.upIssue) :
    (link_configure net link0).state = LinkState.routesSet
    ∧ (link_configure net link0).rtnlMessages = 0
    ∧ (link_configure net link0).pendingAddr = 0
    ∧ (link_configure net link0).pendingRoute = 0
    ∧ (link_configure net link0).pendingUp = 1
    ∧ (∀ m : Int, (link_handler m (link_configure net link0)).state = LinkState.configured)
    ∧ (∀ l : Link, link_enter_set_addresses [] [] l =
        { l with state := if link_is_up l then LinkState.configured
                          else LinkState.routesSet }) := by
  have key : link_configure net link0 =
      { state := LinkState.routesSet, rtnlMessages := 0, flags := 0,
        pendingAddr := 0, pendingRoute := 0, pendingBridge := 0, pendingUp := 1 } := by
    unfold link_configure link_enter_join_bridge
    rw [link_enter_bridge_joined_eq, if_neg (not_lt.mpr h4), h1, h2, h3]
    rfl
  refine ⟨by rw [key], by rw [key], by rw [key], by rw [key], by rw [key],
    fun m => by rw [key]; rfl, fun l => ?_⟩
  unfold link_enter_set_addresses link_enter_addresses_set link_enter_set_routes
  simp only [List.isEmpty_nil, if_pos]
  unfold link_enter_routes_set link_enter_configured link_is_up
  by_cases hup : l.flags &&& IFF_UP ≠ 0 <;> simp [hup]

theorem C4_zero_config_witness :
    netW4.addresses = [] ∧ netW4.routes = [] ∧ netW4.bridge = false
    ∧ (link_configure netW4 link0).state = LinkState.routesSet
    ∧ (link_handler 0 (link_configure netW4 link0)).state = LinkState.configured :=
  ⟨rfl, rfl, rfl, (C4_zero_config netW4 rfl rfl rfl (by decide)).1,
    (C4_zero_config netW4 rfl rfl rfl (by decide)).2.2.2.2.2.1 0⟩

/-- Claim C5: an -EEXIST completion is counted exactly like a success
(the handlers do not read the status for anything but the warning, and
-EEXIST produces no warning), any other negative status warns but still
only decrements; concretely, with two configured addresses one of which
completes with -EEXIST and the other with success, the second completion
invokes the addresses-set stage entry. -/
theorem C5_eexist_counted_as_success :
    (∀ l : Link, ¬ address_handler_warns l (-EEXIST) ∧ ¬ route_handler_warns l (-EEXIST))
    ∧ (∀ (l : Link) (rs : List Int) (m m' : Int),
        address_handler rs m l = address_handler rs m' l
        ∧ route_handler m l = route_handler m' l)
    ∧ (∀ (l : Link) (m : Int), l.state ≠ LinkState.failed → m < 0 → m ≠ -EEXIST →
        address_handler_warns l m ∧ route_handler_warns l m)
    ∧ lW5.state = LinkState.setAddresses
    ∧ lW5.rtnlMessages = 2
    ∧ lW5a.state = LinkState.setAddresses
    ∧ lW5a.rtnlMessages = 1
    ∧ lW5b = link_enter_addresses_set netW5.routes
        { lW5a with rtnlMessages := 0, pendingAddr := 0 }
    ∧ lW5b.state = LinkState.routesSet := by
  exact ⟨fun l => ⟨by simp [address_handler_warns], by simp [route_handler_warns]⟩,
    fun l rs m m' => ⟨rfl, rfl⟩,
    fun l m h1 h2 h3 => ⟨⟨h1, h2, h3⟩, ⟨h1, h2, h3⟩⟩,
    by decide, by decide, by decide, by decide, by decide, by decide⟩

theorem C5_eexist_counted_as_success_witness :
    lW5.state ≠ LinkState.failed
    ∧ ¬ address_handler_warns lW5 (-EEXIST)
    ∧ address_handler_warns lW5 (-3) :=
  ⟨by decide, (C5_eexist_counted_as_success.1 lW5).1,
    (C5_eexist_counted_as_success.2.2.1 lW5 (-3) (by decide) (by decide) (by decide)).1⟩

/-- Claim C10: the link-up completion handler always sets IFF_UP and,
from RoutesSet, always advances to configured (even for an error
status); it never drives the entity to failed, and its result does not
depend on the completion status. -/
theorem C10_link_up_handler :
    (∀ (m : Int) (l : Link), link_is_up (link_handler m l) = true)
    ∧ (∀ (m : Int) (l : Link), l.state = LinkState.routesSet →
        (link_handler m l).state = LinkState.configured)
    ∧ (∀ (m : Int) (l : Link), l.state ≠ LinkState.routesSet →
        (link_handler m l).state = l.state)
    ∧ (∀ (m : Int) (l : Link),
        ((link_handler m l).state = LinkState.failed ↔ l.state = LinkState.failed))
    ∧ (∀ (m m' : Int) (l : Link), link_handler m l = link_handler m' l) := by
  have hflags : ∀ (m : Int) (l : Link), link_is_up (link_handler m l) = true := by
    intro m l
    dsimp only [link_handler]
    split
    · simp [link_is_up, link_enter_configured, IFF_UP, Nat.and_one_is_mod]
    · simp [link_is_up, IFF_UP, Nat.and_one_is_mod]
  refine ⟨hflags, fun m l h => ?_, fun m l h => ?_, fun m l => ?_, fun m m' l => rfl⟩
  · dsimp only [link_handler]
    rw [if_pos (by simpa using h)]
    rfl
  · dsimp only [link_handler]
    rw [if_neg (by simpa using h)]
  · dsimp only [link_handler]
    by_cases h : l.state = LinkState.routesSet
    · rw [if_pos (by simpa using h)]
      simp [link_enter_configured, h]
    · rw [if_neg (by simpa using h)]

theorem C10_link_up_handler_witness :
    link_is_up (link_handler (-19) (⟨LinkState.routesSet, 0, 0, 0, 0, 0, 1⟩ : Link)) = true
    ∧ (link_handler (-19) (⟨LinkState.routesSet, 0, 0, 0, 0, 0, 1⟩ : Link)).state
        = LinkState.configured :=
  ⟨C10_link_up_handler.1 (-19) _,
    C10_link_up_handler.2.1 (-19) _ (by decide)⟩

theorem set_addresses_loop_fail (good : List Int) (f : Int) (rest : List Int)
    (l : Link) (hg : ∀ x ∈ good, 0 ≤ x) (hf : f < 0) :
    link_enter_set_addresses_loop (good ++ f :: rest) l =
      { l with state := LinkState.failed,
               rtnlMessages := l.rtnlMessages + good.length,
               pendingAddr := l.pendingAddr + good.length } := by
  induction good generalizing l with
  | nil =>
      simp only [List.nil_append, link_enter_set_addresses_loop, if_pos hf]
      simp [link_enter_failed]
  | cons g gs ih =>
      have hg0 : 0 ≤ g := hg g (List.mem_cons_self g gs)
      have hgs : ∀ x ∈ gs, 0 ≤ x := fun x hx => hg x (List.mem_cons_of_mem g hx)
      simp only [List.cons_append, link_enter_set_addresses_loop,
        if_neg (by omega : ¬ g < 0), List.append_eq]
      rw [ih _ hgs]
      simp only [Link.mk.injEq, List.length_cons, true_and, and_true]
      refine ⟨by push_cast; ring, by omega⟩

theorem set_routes_loop_fail (good : List Int) (f : Int) (rest : List Int)
    (l : Link) (hg : ∀ x ∈ good, 0 ≤ x) (hf : f < 0) :
    link_enter_set_routes_loop (good ++ f :: rest) l =
      { l with state := LinkState.failed,
               rtnlMessages := l.rtnlMessages + good.length,
               pendingRoute := l.pendingRoute + good.length } := by
  induction good generalizing l with
  | nil =>
      simp only [List.nil_append, link_enter_set_routes_loop, if_pos hf]
      simp [link_enter_failed]
  | cons g gs ih =>
      have hg0 : 0 ≤ g := hg g (List.mem_cons_self g gs)
      have hgs : ∀ x ∈ gs, 0 ≤ x := fun x hx => hg x (List.mem_cons_of_mem g hx)
      simp only [List.cons_append, link_enter_set_routes_loop,
        if_neg (by omega : ¬ g < 0), List.append_eq]
      rw [ih _ hgs]
      simp only [Link.mk.injEq, List.length_cons, true_and, and_true]
      refine ⟨by push_cast; ring, by omega⟩

/-- Claim C6: a synchronous failure of an asynchronous issue call inside
a stage loop drives the link straight to failed and registers no count
for the failed submission, keeping exactly the counts of the earlier
successful submissions of the stage; and on the bus-name side a
synchronous failure to open or to watch the starter descriptor drives
the unit to the failed terminal state with the resources result. -/
theorem C6_sync_issue_failure :
    (∀ (l : Link) (good : List Int) (f : Int) (rest rs : List Int),
        (∀ x ∈ good, 0 ≤ x) → f < 0 →
        link_enter_set_addresses (good ++ f :: rest) rs l =
          { l with state := LinkState.failed,
                   rtnlMessages := l.rtnlMessages + good.length,
                   pendingAddr := l.pendingAddr + good.length })
    ∧ (∀ (l : Link) (good : List Int) (f : Int) (rest : List Int),
        (∀ x ∈ good, 0 ≤ x) → f < 0 →
        link_enter_set_routes (good ++ f :: rest) l =
          { l with state := LinkState.failed,
                   rtnlMessages := l.rtnlMessages + good.length,
                   pendingRoute := l.pendingRoute + good.length })
    ∧ (∀ (n : BusName) (o w : Int), n.starter_fd < 0 → o < 0 →
        (busname_enter_listening o w n).state = BusNameState.failed
        ∧ (busname_enter_listening o w n).result = BusNameResult.failureResources)
    ∧ (∀ (n : BusName) (o w : Int), n.starter_fd < 0 → 0 ≤ o → w < 0 →
        (busname_enter_listening o w n).state = BusNameState.failed
        ∧ (busname_enter_listening o w n).result = BusNameResult.failureResources) := by
  refine ⟨?_, ?_, ?_, ?_⟩
  · intro l good f rest rs hg hf
    unfold link_enter_set_addresses
    rw [if_neg (by simp), set_addresses_loop_fail good f rest _ hg hf]
  · intro l good f rest hg hf
    unfold link_enter_set_routes
    rw [if_neg (by simp), set_routes_loop_fail good f rest _ hg hf]
  · intro n o w hfd ho
    unfold busname_enter_listening
    have hop : busname_open_fd o n = (o, n) := by
      unfold busname_open_fd
      rw [if_neg (by omega), if_pos ho]
    rw [hop]
    rw [if_pos (by simpa using ho)]
    have hres : (BusNameResult.failureResources : BusNameResult) ≠ BusNameResult.success := by
      decide
    exact busname_enter_dead_state n BusNameResult.failureResources hres
  · intro n o w hfd ho hw
    unfold busname_enter_listening
    have hop : busname_open_fd o n = (0, { n with starter_fd := o }) := by
      unfold busname_open_fd
      rw [if_neg (by omega), if_neg (by omega)]
    rw [hop]
    rw [if_neg (by norm_num)]
    have hwa : busname_watch_fd w { n with starter_fd := o } =
        (w, busname_unwatch_fd { n with starter_fd := o }) := by
      unfold busname_watch_fd
      rw [if_neg (by simpa using not_lt.mpr ho), if_pos hw]
    rw [hwa]
    rw [if_pos (by simpa using hw)]
    exact busname_enter_dead_state _ BusNameResult.failureResources (by decide)

theorem C6_sync_issue_failure_witness :
    (∀ x ∈ [(0 : Int)], 0 ≤ x)
    ∧ link_enter_set_addresses ([(0 : Int)] ++ (-12) :: []) [] link0 =
      { link0 with state := LinkState.failed,
                   rtnlMessages := link0.rtnlMessages + ([(0 : Int)]).length,
                   pendingAddr := link0.pendingAddr + ([(0 : Int)]).length }
    ∧ (busname_enter_listening (-13) 0 nW6).state = BusNameState.failed
    ∧ (busname_enter_listening (-13) 0 nW6).result = BusNameResult.failureResources :=
  ⟨by decide,
    C6_sync_issue_failure.1 link0 [0] (-12) [] [] (by decide) (by decide),
    (C6_sync_issue_failure.2.2.1 nW6 (-13) 0 (by decide) (by decide)).1,
    (C6_sync_issue_failure.2.2.1 nW6 (-13) 0 (by decide) (by decide)).2⟩

/-- Claim C7: busname_set_state leaves the watch disabled whenever the
new state is not listening, closes a held starter descriptor whenever the
new state is neither listening nor running, reports the transition log
exactly when the state changed, and always notifies with the activation
statuses obtained from the static state-translation table. -/
theorem C7_set_state_effects (n : BusName) (s : BusNameState) :
    (s ≠ BusNameState.listening →
      (busname_set_state n s).1.event_source = n.event_source.map (fun _ => false))
    ∧ (¬ (s = BusNameState.listening ∨ s = BusNameState.running) → 0 < n.starter_fd →
      (busname_set_state n s).1.starter_fd = -1)
    ∧ ((busname_set_state n s).2.logged = true ↔ s ≠ n.state)
    ∧ (busname_set_state n s).2.notifyOld = state_translation_table n.state
    ∧ (busname_set_state n s).2.notifyNew = state_translation_table s := by
  rw [busname_set_state_eq]
  refine ⟨fun h => ?_, fun h hfd => ?_, ?_, rfl, rfl⟩
  · simp [h]
  · simp [h, show ¬ n.starter_fd ≤ 0 by omega]
  · simp

theorem C7_set_state_effects_witness :
    (BusNameState.dead ≠ BusNameState.listening)
    ∧ (busname_set_state nW7 BusNameState.dead).1.event_source
        = nW7.event_source.map (fun _ => false)
    ∧ (busname_set_state nW7 BusNameState.dead).1.starter_fd = -1
    ∧ ((busname_set_state nW7 BusNameState.dead).2.logged = true ↔
        BusNameState.dead ≠ nW7.state) :=
  ⟨by decide, (C7_set_state_effects nW7 BusNameState.dead).1 (by decide),
    (C7_set_state_effects nW7 BusNameState.dead).2.1 (by decide) (by decide),
    (C7_set_state_effects nW7 BusNameState.dead).2.2.1⟩

/-- Claim C8: a trigger notification from a loaded dependent service in
the failed sub-state drives a running/listening bus name to its own
terminal failed state with the dependent-failed-permanently result when
the dependent's failure is the start-limit one (and it does not re-enter
listening), and re-enters the listening stage for any other failure
result. -/
theorem C8_trigger_failed_dependent (o w : Int) (other : Srv) (n : BusName)
    (hs : n.state = BusNameState.running ∨ n.state = BusNameState.listening)
    (hl : other.loaded = true) (ht : other.isService = true)
    (hfail : other.sstate = ServiceState.failed) :
    (other.sresult = ServiceResult.failureStartLimit →
      busname_trigger_notify o w other n =
        busname_enter_dead n BusNameResult.failureServiceFailedPermanent
      ∧ (busname_trigger_notify o w other n).state = BusNameState.failed
      ∧ (busname_trigger_notify o w other n).result
          = BusNameResult.failureServiceFailedPermanent)
    ∧ (other.sresult ≠ ServiceResult.failureStartLimit →
      busname_trigger_notify o w other n = busname_enter_listening o w n) := by
  have hstop : ∀ st : BusNameState,
      st = BusNameState.listening ∨ st = BusNameState.failed →
      state_in_service_stop_set st = false := by
    rintro st (h | h) <;> subst h <;> rfl
  constructor
  · intro hres
    have hd := busname_enter_dead_state n
      BusNameResult.failureServiceFailedPermanent (by decide)
    have heq : busname_trigger_notify o w other n =
        busname_enter_dead n BusNameResult.failureServiceFailedPermanent := by
      unfold busname_trigger_notify
      rw [if_neg (not_not_intro hs), if_neg (not_not_intro ⟨hl, ht⟩)]
      simp [hfail, hres, hstop _ (Or.inr hd.1)]
    exact ⟨heq, by rw [heq]; exact hd.1, by rw [heq]; exact hd.2⟩
  · intro hres
    unfold busname_trigger_notify
    rw [if_neg (not_not_intro hs), if_neg (not_not_intro ⟨hl, ht⟩)]
    simp [hfail, hres, hstop _ (busname_enter_listening_state o w n)]

theorem C8_trigger_failed_dependent_witness :
    (nW8.state = BusNameState.running ∨ nW8.state = BusNameState.listening)
    ∧ busname_trigger_notify 0 0 srvFailPerm nW8 =
        busname_enter_dead nW8 BusNameResult.failureServiceFailedPermanent
    ∧ (busname_trigger_notify 0 0 srvFailPerm nW8).state = BusNameState.failed
    ∧ busname_trigger_notify 0 0 srvFailOther nW8 = busname_enter_listening 0 0 nW8 :=
  ⟨Or.inl rfl,
    ((C8_trigger_failed_dependent 0 0 srvFailPerm nW8 (Or.inl rfl) rfl rfl rfl).1 rfl).1,
    ((C8_trigger_failed_dependent 0 0 srvFailPerm nW8 (Or.inl rfl) rfl rfl rfl).1 rfl).2.1,
    (C8_trigger_failed_dependent 0 0 srvFailOther nW8 (Or.inl rfl) rfl rfl rfl).2
      (by decide)⟩

/-- Claim C9 (refuting evaluation): with the observer running and the
loaded dependent service in the stop sub-state, busname_trigger_notify
leaves the observer unchanged instead of re-entering the listening
stage: the final IN_SET tests the observer's own state value against
SERVICE_* constants, so its result is the same whether the dependent is
stopping or running, and it never holds for a reachable observer
state. -/
theorem C9_stop_substate_not_rearmed :
    busname_trigger_notify 0 0 srvStopping nW9 = nW9
    ∧ (busname_trigger_notify 0 0 srvStopping nW9).state ≠ BusNameState.listening
    ∧ busname_trigger_notify 0 0 srvStopping nW9 =
        busname_trigger_notify 0 0 srvRunningW nW9
    ∧ state_in_service_stop_set nW9.state = false
    ∧ state_in_service_stop_set BusNameState.listening = false
    ∧ state_in_service_stop_set BusNameState.failed = false := by
  decide

theorem busname_open_fd_noop {n : BusName} (o : Int) (h : 0 ≤ n.starter_fd) :
    busname_open_fd o n = (0, n) := by
  unfold busname_open_fd
  rw [if_pos h]

theorem busname_coldplug_listening {n : BusName} (o w : Int)
    (hd : n.deserialized_state = BusNameState.listening)
    (hst : n.state = BusNameState.dead) (hfd : 0 ≤ n.starter_fd) (hw : 0 ≤ w) :
    busname_coldplug o w n =
      (0, (busname_set_state { n with event_source := some true }
            BusNameState.listening).1) := by
  unfold busname_coldplug
  rw [if_neg (by rw [hd, hst]; decide)]
  simp only [hd, busname_open_fd_noop o hfd]
  simp [busname_watch_fd, show ¬ n.starter_fd < 0 by omega, show ¬ w < 0 by omega, hd]

theorem busname_coldplug_running {n : BusName} (o w : Int)
    (hd : n.deserialized_state = BusNameState.running)
    (hst : n.state = BusNameState.dead) (hfd : 0 ≤ n.starter_fd) :
    busname_coldplug o w n =
      (0, (busname_set_state n BusNameState.running).1) := by
  unfold busname_coldplug
  rw [if_neg (by rw [hd, hst]; decide)]
  simp only [hd, busname_open_fd_noop o hfd]
  simp

/-- Claim C3: serializing a listening/running bus name (state, result and
a duplicated starter descriptor placed in the descriptor table), applying
every emitted line to a fresh unit, and running coldplug reproduces the
observable state and result, with the starter descriptor being exactly
the one taken from the descriptor table: coldplug's open step is a no-op
because a descriptor is already held, for every possible open result. -/
theorem C3_serialize_roundtrip (n : BusName) (fds : List Int) (dupFd o w : Int)
    (hstate : n.state = BusNameState.listening ∨ n.state = BusNameState.running)
    (hfd : 0 ≤ n.starter_fd)
    (hres : n.result = BusNameResult.success ∨ n.result = BusNameResult.failureResources)
    (hdup : 0 ≤ dupFd) (hw : 0 ≤ w) :
    roundtrip_ok dupFd o w n fds := by
  have hitem3 : ∀ n2 : BusName,
      busname_deserialize_item n2 "starter-fd" (renderInt dupFd) (dupFd :: fds) =
        ({ n2 with starter_fd := dupFd }, fds) := by
    intro n2
    unfold busname_deserialize_item
    rw [if_neg (show ¬ ("starter-fd" : String) = "state" by decide),
        if_neg (show ¬ ("starter-fd" : String) = "result" by decide),
        if_pos rfl, safe_atoi_renderInt hdup]
    dsimp only
    rw [if_neg (show ¬ (dupFd < 0 ∨ ¬ ((dupFd :: fds).contains dupFd = true)) by
          push_neg
          exact ⟨by omega, by simp⟩)]
    rw [List.erase_cons_head]
  have hser : busname_serialize dupFd n fds =
      Except.ok (roundtrip_lines dupFd n, dupFd :: fds) := by
    rcases hres with h2 | h2 <;>
      simp [busname_serialize, roundtrip_lines, h2, busname_result_to_string,
        hfd, show ¬ dupFd < 0 by omega]
  have key : deserialize_all (roundtrip_lines dupFd n) busname_init (dupFd :: fds) =
      ({ busname_init with deserialized_state := n.state, result := n.result, starter_fd := dupFd }, fds) := by
    rcases hstate with h1 | h1 <;> rcases hres with h2 | h2 <;>
      simp [deserialize_all, roundtrip_lines, h1, h2, busname_state_to_string,
        busname_result_to_string, busname_deserialize_item,
        busname_state_from_string, busname_result_from_string,
        busname_init, safe_atoi_renderInt hdup, show ¬ dupFd < 0 by omega,
        List.erase_cons_head]
  have hrest : restored dupFd n fds =
      { busname_init with deserialized_state := n.state, result := n.result, starter_fd := dupFd } := by
    unfold restored
    rw [key]
  have hrfds : restored_fds dupFd n fds = fds := by
    unfold restored_fds
    rw [key]
  refine ⟨hser, by rw [hrest], by rw [hrest], by rw [hrest], hrfds, ?_, ?_, ?_, ?_⟩ <;>
    rcases hstate with h1 | h1
  · rw [hrest, busname_coldplug_listening o w (by simp [h1]) (by simp [busname_init])
      (by simp; omega) hw]
  · rw [hrest, busname_coldplug_running o w (by simp [h1]) (by simp [busname_init])
      (by simp; omega)]
  · rw [hrest, busname_coldplug_listening o w (by simp [h1]) (by simp [busname_init])
      (by simp; omega) hw, busname_set_state_eq]
    simp [h1]
  · rw [hrest, busname_coldplug_running o w (by simp [h1]) (by simp [busname_init])
      (by simp; omega), busname_set_state_eq]
    simp [h1]
  · rw [hrest, busname_coldplug_listening o w (by simp [h1]) (by simp [busname_init])
      (by simp; omega) hw, busname_set_state_eq]
  · rw [hrest, busname_coldplug_running o w (by simp [h1]) (by simp [busname_init])
      (by simp; omega), busname_set_state_eq]
  · rw [hrest, busname_coldplug_listening o w (by simp [h1]) (by simp [busname_init])
      (by simp; omega) hw, busname_set_state_eq]
    simp
  · rw [hrest, busname_coldplug_running o w (by simp [h1]) (by simp [busname_init])
      (by simp; omega), busname_set_state_eq]
    simp

theorem C3_serialize_roundtrip_witness :
    (nW3.state = BusNameState.listening ∨ nW3.state = BusNameState.running)
    ∧ 0 ≤ nW3.starter_fd ∧ roundtrip_ok 9 7 0 nW3 [] :=
  ⟨Or.inl rfl, by decide,
    C3_serialize_roundtrip nW3 [] 9 7 0 (Or.inl rfl) (by decide) (Or.inl rfl)
      (by decide) (by decide)⟩
